import Mathlib

/-
  Verification of the resume-builder generation pipeline.

  Shallow embedding of the backend modules:
    app/models/resume_draft.py     (data model)
    app/services/resume_pipeline.py (ResumePipeline)
    app/api/v1/resumes_v2.py        (create_resume / _process_existing_resume)
    app/services/ai_enhancer_v2.py  (AIEnhancerService)
    app/workers/task_locks.py       (TaskLock in-memory fallback)

  External collaborators (LLM, HTML renderer, Playwright rasterizer, S3
  storage) are modelled as outcome oracles supplied through an environment
  record; the repository's own control flow around them is translated
  faithfully.  Machine-level details without control-flow effect (metrics
  counters, logging, timestamps, the temp-file round trip of PDF bytes)
  are elided, as are draft payload fields the pipeline never inspects.
-/

namespace ResumeBuilder

/- ---------------------------------------------------------------------
   Python string semantics used by the code: `str.strip()` and blank tests.
   `pyStrip` models `str.strip()` (drop leading/trailing whitespace) with
   structural recursion so that all proofs reduce in the kernel.
--------------------------------------------------------------------- -/

def dropLeadingWS : List Char → List Char
  | [] => []
  | c :: cs => if c.isWhitespace then dropLeadingWS cs else c :: cs

def pyStrip (s : String) : String :=
  String.mk ((dropLeadingWS ((dropLeadingWS s.data.reverse)).reverse))

/-- Models the Python test `not s or not s.strip()` on a `str` value. -/
def pyBlank (s : String) : Bool :=
  s == "" || pyStrip s == ""

/- ---------------------------------------------------------------------
   Data model, from app/models/resume_draft.py.
   Payload-only fields never inspected by the pipeline's control flow
   (dates, locations, links, education, skills, template style, prompt-only
   context such as job_description and custom_instructions) are omitted.
--------------------------------------------------------------------- -/

structure ExperienceEntry where
  company : String
  position : String
  achievements : List String
  deriving Repr, DecidableEq, BEq

structure ProjectEntry where
  name : String
  description : String
  deriving Repr, DecidableEq, BEq

structure Profile where
  full_name : String
  email : String
  summary : Option String
  deriving Repr, DecidableEq, BEq

structure AIEnhancementOptions where
  enhance_summary : Bool
  enhance_experience : Bool
  enhance_projects : Bool
  deriving Repr, DecidableEq, BEq

structure ResumeDraft where
  profile : Profile
  experience : List ExperienceEntry
  projects : List ProjectEntry
  ai_enhancement : AIEnhancementOptions
  deriving Repr, DecidableEq, BEq

inductive ResumeStatus where
  | draft
  | processing
  | complete
  | error
  deriving Repr, DecidableEq, BEq

structure PDFMetadata where
  s3_key : String
  url : String
  file_size : Nat
  deriving Repr, DecidableEq, BEq

/-- One stored resume document (`ResumeDocument` in resume_draft.py;
timestamps and free-form metadata omitted). -/
structure ResumeDocument where
  resume_id : String
  user_id : String
  snapshot : ResumeDraft
  status : ResumeStatus
  html_content : Option String
  pdf : Option PDFMetadata
  error_message : Option String
  error_code : Option String
  retry_count : Nat
  deriving Repr, DecidableEq, BEq

/- ---------------------------------------------------------------------
   Draft validation, from ResumePipeline._validate_draft
   (app/services/resume_pipeline.py lines 169-197).
--------------------------------------------------------------------- -/

def validate_experience : Nat → List ExperienceEntry → Except String Unit
  | _, [] => Except.ok ()
  | idx, exp :: rest =>
    if pyBlank exp.company then
      Except.error ("Experience entry " ++ toString (idx + 1) ++
        ": Company name is required and cannot be empty.")
    else if pyBlank exp.position then
      Except.error ("Experience entry " ++ toString (idx + 1) ++
        ": Position/title is required and cannot be empty.")
    else validate_experience (idx + 1) rest

def validate_draft (draft : ResumeDraft) : Except String Unit :=
  if pyBlank draft.profile.full_name then
    Except.error ("Profile full_name is required and cannot be empty. " ++
      "Please provide your full name in the profile section.")
  else validate_experience 0 draft.experience

/-- Creation step of `create_resume` (app/api/v1/resumes_v2.py lines 162-232):
validate first; only on success is a document inserted, in status `draft`. -/
def mk_document (resume_id user_id : String) (snapshot : ResumeDraft) : ResumeDocument :=
  { resume_id := resume_id
    user_id := user_id
    snapshot := snapshot
    status := ResumeStatus.draft
    html_content := none
    pdf := none
    error_message := none
    error_code := none
    retry_count := 0 }

def create_resume (resume_id user_id : String) (draft : ResumeDraft) :
    Except String ResumeDocument :=
  match validate_draft draft with
  | Except.error e => Except.error e
  | Except.ok _ => Except.ok (mk_document resume_id user_id draft)

/- ---------------------------------------------------------------------
   AIEnhancerService, from app/services/ai_enhancer_v2.py.
   The single LLM call `llm_service.generate_completion(...)` inside each
   method is modelled by an `Except String String` outcome oracle (`.ok`:
   the returned completion text, `.error`: any raised exception).  The
   prompt-building helpers only shape the oracle's input and are elided.
--------------------------------------------------------------------- -/

/-- Bullet markers tried, in order, by `_parse_bullet_points`. -/
def bulletMarkers : List (List Char) :=
  [("- ").data, ("• ").data, ("* ").data, ("→ ").data, ("> ").data]

/-- Models `line[len(marker):]` followed by `.strip()` after the first
matching marker, or the unchanged line when no marker matches. -/
def stripBulletMarker (line : List Char) : List Char :=
  match bulletMarkers.find? (fun p => List.isPrefixOf p line) with
  | some p => (pyStrip (String.mk (line.drop p.length))).data
  | none => line

/-- Models `text.split(chr 10)` on a character list (Python keeps empty
segments; leading strip is applied by the caller). -/
def splitNewlines : List Char → List (List Char)
  | [] => [[]]
  | c :: cs =>
    let r := splitNewlines cs
    if c = Char.ofNat 10 then [] :: r
    else
      match r with
      | [] => [[c]]
      | l :: ls => (c :: l) :: ls

/-- AIEnhancerService._parse_bullet_points (ai_enhancer_v2.py lines 289-326). -/
def parse_bullet_points (text : String) (expected_count : Nat) : List String :=
  let lines := splitNewlines (pyStrip text).data
  let bullets := lines.foldl
    (fun acc l =>
      let line := (pyStrip (String.mk l)).data
      if line.isEmpty then acc
      else
        let line := stripBulletMarker line
        if line.isEmpty then acc else acc ++ [String.mk line])
    []
  if bullets.length < expected_count then bullets
  else if bullets.length > expected_count then bullets.take expected_count
  else bullets

/-- AIEnhancerService.enhance_summary (lines 58-93).  Second component
records whether the LLM collaborator was invoked. -/
def enhance_summary (llm : Except String String) (original_summary : String) :
    String × Bool :=
  if pyBlank original_summary then (original_summary, false)
  else
    match llm with
    | Except.ok enhanced => (pyStrip enhanced, true)
    | Except.error _ => (original_summary, true)

/-- AIEnhancerService.enhance_experience_achievements (lines 95-139). -/
def enhance_experience_achievements (llm : Except String String)
    (achievements : List String) : List String :=
  if achievements.isEmpty then achievements
  else
    match llm with
    | Except.ok enhanced_text => parse_bullet_points enhanced_text achievements.length
    | Except.error _ => achievements

/-- AIEnhancerService.enhance_project_description (lines 141-182). -/
def enhance_project_description (llm : Except String String)
    (original_description : String) : String × Bool :=
  if pyBlank original_description then (original_description, false)
  else
    match llm with
    | Except.ok enhanced => (pyStrip enhanced, true)
    | Except.error _ => (original_description, true)

/- ---------------------------------------------------------------------
   Pipeline orchestration, from app/services/resume_pipeline.py and
   app/api/v1/resumes_v2.py.

   Observable effects of one run are traced as events: each database write
   to the resumes store and each external-collaborator call.
--------------------------------------------------------------------- -/

inductive Event where
  | dbInsert
  | dbUpdateStatus (status : ResumeStatus)
  | dbSaveHtml
  | dbMarkError (code : String)
  | dbComplete
  | callAI
  | callRender
  | callPdf (attempt : Nat)
  | callUpload
  deriving Repr, DecidableEq, BEq

/-- Per-call outcomes of the three AIEnhancerService methods as invoked by
`ResumePipeline._apply_ai_enhancement`; list-valued sections are indexed by
entry position.  `none` pipeline-side corresponds to `self.ai_enhancer`
being `None`. -/
structure AIOracles where
  summary : String → Except String String
  achievements : Nat → List String → Except String (List String)
  project : Nat → String → Except String String

/-- Python truthiness of `enhanced.get(\x7b...\x7d).get(chr 39 summary chr 39)`:
absent, None and the empty string are falsy. -/
def summaryTruthy : Option String → Bool
  | none => false
  | some s => !(s == "")

/-- Loop over experience entries in `_apply_ai_enhancement` (resume_pipeline.py
lines 254-271): each entry with a non-empty achievements list gets one
enhancement call; on failure the original entry is kept. -/
def enhance_exps (env : AIOracles) : Nat → List ExperienceEntry →
    List ExperienceEntry × List Event
  | _, [] => ([], [])
  | i, e :: rest =>
    let r := enhance_exps env (i + 1) rest
    if e.achievements.isEmpty then (e :: r.1, r.2)
    else
      match env.achievements i e.achievements with
      | Except.ok newA => ({ e with achievements := newA } :: r.1, Event.callAI :: r.2)
      | Except.error _ => (e :: r.1, Event.callAI :: r.2)

/-- Loop over projects in `_apply_ai_enhancement` (lines 274-291). -/
def enhance_projs (env : AIOracles) : Nat → List ProjectEntry →
    List ProjectEntry × List Event
  | _, [] => ([], [])
  | i, p :: rest =>
    let r := enhance_projs env (i + 1) rest
    if p.description == "" then (p :: r.1, r.2)
    else
      match env.project i p.description with
      | Except.ok newD => ({ p with description := newD } :: r.1, Event.callAI :: r.2)
      | Except.error _ => (p :: r.1, Event.callAI :: r.2)

/-- Summary block of `_apply_ai_enhancement` (resume_pipeline.py lines
239-251): one call when toggled on and the summary is truthy; on failure
the original summary is kept. -/
def summary_step (env : AIOracles) (ai_options : AIEnhancementOptions)
    (snapshot : ResumeDraft) : ResumeDraft × List Event :=
  if ai_options.enhance_summary && summaryTruthy snapshot.profile.summary then
    match snapshot.profile.summary with
    | some orig =>
      match env.summary orig with
      | Except.ok r =>
        ({ snapshot with profile := { snapshot.profile with summary := some r } },
         [Event.callAI])
      | Except.error _ => (snapshot, [Event.callAI])
    | none => (snapshot, [])
  else (snapshot, [])

/-- Experience block of `_apply_ai_enhancement` (lines 254-271). -/
def experience_step (env : AIOracles) (ai_options : AIEnhancementOptions)
    (s : ResumeDraft × List Event) : ResumeDraft × List Event :=
  if ai_options.enhance_experience && !s.1.experience.isEmpty then
    let r := enhance_exps env 0 s.1.experience
    ({ s.1 with experience := r.1 }, s.2 ++ r.2)
  else s

/-- Projects block of `_apply_ai_enhancement` (lines 274-291). -/
def projects_step (env : AIOracles) (ai_options : AIEnhancementOptions)
    (s : ResumeDraft × List Event) : ResumeDraft × List Event :=
  if ai_options.enhance_projects && !s.1.projects.isEmpty then
    let r := enhance_projs env 0 s.1.projects
    ({ s.1 with projects := r.1 }, s.2 ++ r.2)
  else s

/-- ResumePipeline._apply_ai_enhancement (lines 213-293): per-section,
togglable; every per-field failure is caught locally and the original
value kept; the function itself never fails. -/
def apply_ai_enhancement (ai_enhancer : Option AIOracles)
    (ai_options : AIEnhancementOptions) (snapshot : ResumeDraft) :
    ResumeDraft × List Event :=
  match ai_enhancer with
  | none => (snapshot, [])
  | some env =>
    projects_step env ai_options
      (experience_step env ai_options (summary_step env ai_options snapshot))

/-- Collaborator outcomes for one pipeline run.  `pdf` is indexed by the
attempt number so that statements about retry behaviour can be expressed;
`uploadPut` and `presign` are the two awaited storage calls in
`_upload_pdf`. -/
structure PipelineEnv where
  ai_enhancer : Option AIOracles
  render : ResumeDraft → Except String String
  pdf : Nat → Except String (List Nat)
  uploadPut : Except String Unit
  presign : Except String String

/- Field-scoped document-store updates (resume_pipeline.py lines 295-447).
Each models one `update_one` with a set of `$set` fields (plus `$inc` for
`retry_count` in `_mark_error`); no other field of the stored document is
touched. -/

def update_status (d : ResumeDocument) (status : ResumeStatus) : ResumeDocument :=
  { d with status := status }

def save_html (d : ResumeDocument) (html_content : String) : ResumeDocument :=
  { d with html_content := some html_content }

def complete_resume (d : ResumeDocument) (pdf_metadata : PDFMetadata) : ResumeDocument :=
  { d with status := ResumeStatus.complete, pdf := some pdf_metadata }

def mark_error (d : ResumeDocument) (error_message error_code : String) : ResumeDocument :=
  { d with
    status := ResumeStatus.error
    error_message := some error_message
    error_code := some error_code
    retry_count := d.retry_count + 1 }

/-- ResumePipeline._generate_pdf_with_retry (lines 321-363): despite its
name it makes exactly one call to the Playwright service (which itself
contains no retry loop, see pdf_playwright.py lines 114-209) and wraps any
failure in a PDFGenerationError message. -/
def generate_pdf_with_retry (pdf : Nat → Except String (List Nat)) :
    Except String (List Nat) :=
  match pdf 0 with
  | Except.ok pdf_bytes => Except.ok pdf_bytes
  | Except.error e => Except.error ("PDF generation failed: " ++ e)

/-- ResumePipeline._upload_pdf (lines 365-416): upload then presigned URL;
metadata is built only after both succeed. -/
def upload_pdf (env : PipelineEnv) (resume_id user_id : String)
    (pdf_bytes : List Nat) : Except String PDFMetadata :=
  match env.uploadPut with
  | Except.error e => Except.error e
  | Except.ok _ =>
    match env.presign with
    | Except.error e => Except.error e
    | Except.ok url =>
      Except.ok
        { s3_key := "resumes/" ++ user_id ++ "/" ++ resume_id ++ ".pdf"
          url := url
          file_size := pdf_bytes.length }

/-- Result of one run: the trace of events, the successive states of the
stored document (in write order, starting at creation), and the final
stored document. -/
structure RunResult where
  events : List Event
  states : List ResumeDocument
  final : ResumeDocument

/-- Render / produce / upload / terminal-write tail shared by
`ResumePipeline.generate_resume` and `_process_existing_resume`.  The two
callers classify caught exceptions differently, so the (message, code)
written by `_mark_error` is supplied by the two handlers: `handlePdfErr`
for a PDFGenerationError from the produce stage, `handleOtherErr` for
every other exception. -/
def run_tail (handlePdfErr handleOtherErr : String → String × String)
    (env : PipelineEnv) (resume_id user_id : String)
    (enhanced : ResumeDraft) (base : ResumeDocument) :
    List Event × List ResumeDocument × ResumeDocument :=
  match env.render enhanced with
  | Except.error e =>
    let mc := handleOtherErr e
    let df := mark_error base mc.1 mc.2
    ([Event.callRender, Event.dbMarkError mc.2], [df], df)
  | Except.ok html =>
    let d2 := save_html base html
    match generate_pdf_with_retry env.pdf with
    | Except.error e =>
      let mc := handlePdfErr e
      let df := mark_error d2 mc.1 mc.2
      ([Event.callRender, Event.dbSaveHtml, Event.callPdf 0,
        Event.dbMarkError mc.2], [d2, df], df)
    | Except.ok pdf_bytes =>
      match upload_pdf env resume_id user_id pdf_bytes with
      | Except.error e =>
        let mc := handleOtherErr e
        let df := mark_error d2 mc.1 mc.2
        ([Event.callRender, Event.dbSaveHtml, Event.callPdf 0,
          Event.callUpload, Event.dbMarkError mc.2], [d2, df], df)
      | Except.ok meta =>
        let d3 := complete_resume d2 meta
        ([Event.callRender, Event.dbSaveHtml, Event.callPdf 0,
          Event.callUpload, Event.dbComplete], [d2, d3], d3)

/-- Gate guarding the AI-enhancement stage in both callers. -/
def aiGate (draft : ResumeDraft) : Bool :=
  draft.ai_enhancement.enhance_summary || draft.ai_enhancement.enhance_experience ||
    draft.ai_enhancement.enhance_projects

/-- Gated AI-enhancement stage shared by both callers (the `enhanced_snapshot`
computation of resumes_v2.py lines 310-319 and resume_pipeline.py
lines 112-121). -/
def aiStage (env : PipelineEnv) (draft : ResumeDraft) : ResumeDraft × List Event :=
  if aiGate draft then
    apply_ai_enhancement env.ai_enhancer draft.ai_enhancement draft
  else (draft, [])

/-- Exception handling of `_process_existing_resume` (resumes_v2.py lines
339-351): every exception is recorded with the one fixed code. -/
def bgHandler : String → String × String :=
  fun e => ("Resume generation failed: " ++ e, "processing_error")

/-- PDFGenerationError handler of `generate_resume` (resume_pipeline.py
lines 156-160). -/
def pdfErrHandler : String → String × String :=
  fun e => ("PDF generation failed: " ++ e, "pdf_error")

/-- Catch-all handler of `generate_resume` (lines 162-167). -/
def unknownHandler : String → String × String :=
  fun e => ("Resume generation failed: " ++ e, "unknown")

/-- The production path: `create_resume` inserts the document in status
`draft` (resumes_v2.py line 231) and dispatches `_process_existing_resume`
(lines 283-354), which first sets `processing`, then enhances, renders,
produces, uploads, and terminally writes `complete` or `error`.  Both
except-handlers of the background task use the fixed code
"processing_error"; the outer handler swallows everything, so the function
is total: no exception crosses the background boundary. -/
def process_existing_resume (env : PipelineEnv) (resume_id user_id : String)
    (draft : ResumeDraft) : RunResult :=
  let d0 := mk_document resume_id user_id draft
  let d1 := update_status d0 ResumeStatus.processing
  let ae := aiStage env draft
  let t := run_tail bgHandler bgHandler env resume_id user_id ae.1 d1
  { events := Event.dbInsert :: Event.dbUpdateStatus ResumeStatus.processing ::
      (ae.2 ++ t.1)
    states := d0 :: d1 :: t.2.1
    final := t.2.2 }

/-- ResumePipeline.generate_resume (resume_pipeline.py lines 80-167):
validates, inserts the draft document, runs AI enhancement, only then sets
`processing`, and continues with the same tail; a PDFGenerationError is
recorded with code "pdf_error", any other exception with code "unknown". -/
def generate_resume (env : PipelineEnv) (resume_id user_id : String)
    (draft : ResumeDraft) : Except String RunResult :=
  match validate_draft draft with
  | Except.error e => Except.error e
  | Except.ok _ =>
    let d0 := mk_document resume_id user_id draft
    let ae := aiStage env draft
    let d1 := update_status d0 ResumeStatus.processing
    let t := run_tail pdfErrHandler unknownHandler env resume_id user_id ae.1 d1
    Except.ok
      { events := Event.dbInsert ::
          (ae.2 ++ Event.dbUpdateStatus ResumeStatus.processing :: t.1)
        states := d0 :: d1 :: t.2.1
        final := t.2.2 }

/-- Events of `generate_resume`, empty when validation rejects the draft. -/
def genEvents (env : PipelineEnv) (resume_id user_id : String)
    (draft : ResumeDraft) : List Event :=
  match generate_resume env resume_id user_id draft with
  | Except.ok r => r.events
  | Except.error _ => []

/-- Store states written by `generate_resume`, empty when validation
rejects the draft (nothing is persisted then). -/
def genStates (env : PipelineEnv) (resume_id user_id : String)
    (draft : ResumeDraft) : List ResumeDocument :=
  match generate_resume env resume_id user_id draft with
  | Except.ok r => r.states
  | Except.error _ => []

def isExternalCall : Event → Bool
  | Event.callAI => true
  | Event.callRender => true
  | Event.callPdf _ => true
  | Event.callUpload => true
  | _ => false

def isHeavyExternal : Event → Bool
  | Event.callRender => true
  | Event.callPdf _ => true
  | Event.callUpload => true
  | _ => false

def isPdfCall : Event → Bool
  | Event.callPdf _ => true
  | _ => false

/-- Checks that no event selected by `isExt` occurs in the trace before the
write that sets status `processing`. -/
def checkBefore (isExt : Event → Bool) : Bool → List Event → Bool
  | _, [] => true
  | seen, e :: rest =>
    if isExt e && !seen then false
    else checkBefore isExt
      (seen || e == Event.dbUpdateStatus ResumeStatus.processing) rest

/-- Decidable form of the store invariant of claim C4. -/
def docInvariantB (d : ResumeDocument) : Bool :=
  (d.pdf.isSome == (d.status == ResumeStatus.complete)) &&
  (d.error_message.isSome == (d.status == ResumeStatus.error)) &&
  (d.error_code.isSome == (d.status == ResumeStatus.error))

/- ---------------------------------------------------------------------
   Distributed task lock, in-memory fallback, from
   app/workers/task_locks.py.  The module dict `_task_locks` is modelled
   as a total map from keys to optional entries; the md5 digest in
   `_get_lock_key` is modelled by the argument string itself (a stable,
   collision-free digest).  Times are naturals (seconds).
--------------------------------------------------------------------- -/

structure LockData where
  acquired_at : Nat
  expires_at : Nat
  deriving Repr, DecidableEq, BEq

def get_lock_key (task_name args_str : String) : String :=
  "task_lock:" ++ task_name ++ ":" ++ args_str

/-- TaskLock._acquire_memory (task_locks.py lines 155-173): refuse when a
non-expired entry exists, otherwise (re)write the entry with the new
expiry. -/
def acquire_memory (locks : String → Option LockData) (lock_key : String)
    (now timeout_seconds : Nat) : Bool × (String → Option LockData) :=
  match locks lock_key with
  | some lock_data =>
    if now < lock_data.expires_at then (false, locks)
    else
      (true, fun k => if k = lock_key then
        some { acquired_at := now, expires_at := now + timeout_seconds }
      else locks k)
  | none =>
    (true, fun k => if k = lock_key then
      some { acquired_at := now, expires_at := now + timeout_seconds }
    else locks k)

/-- TaskLock.acquire through the in-memory fallback. -/
def acquire (locks : String → Option LockData) (task_name task_args : String)
    (now timeout_seconds : Nat) : Bool × (String → Option LockData) :=
  acquire_memory locks (get_lock_key task_name task_args) now timeout_seconds

/-- TaskLock._release_memory (lines 175-180). -/
def release_memory (locks : String → Option LockData) (lock_key : String) :
    Bool × (String → Option LockData) :=
  match locks lock_key with
  | some _ => (true, fun k => if k = lock_key then none else locks k)
  | none => (false, locks)

/- ---------------------------------------------------------------------
   Helper lemmas shared by several claims.
--------------------------------------------------------------------- -/

/-- Exhaustive enumeration of the outcomes of the render/produce/upload
tail: render fails, produce fails, upload fails, or everything succeeds. -/
theorem run_tail_cases (hp ho : String → String × String) (env : PipelineEnv)
    (rid uid : String) (enh : ResumeDraft) (base : ResumeDocument) :
    (∃ e, run_tail hp ho env rid uid enh base =
      ([Event.callRender, Event.dbMarkError (ho e).2],
       [mark_error base (ho e).1 (ho e).2],
       mark_error base (ho e).1 (ho e).2))
    ∨ (∃ html e, run_tail hp ho env rid uid enh base =
      ([Event.callRender, Event.dbSaveHtml, Event.callPdf 0,
        Event.dbMarkError (hp e).2],
       [save_html base html, mark_error (save_html base html) (hp e).1 (hp e).2],
       mark_error (save_html base html) (hp e).1 (hp e).2))
    ∨ (∃ html e, run_tail hp ho env rid uid enh base =
      ([Event.callRender, Event.dbSaveHtml, Event.callPdf 0, Event.callUpload,
        Event.dbMarkError (ho e).2],
       [save_html base html, mark_error (save_html base html) (ho e).1 (ho e).2],
       mark_error (save_html base html) (ho e).1 (ho e).2))
    ∨ (∃ html meta, run_tail hp ho env rid uid enh base =
      ([Event.callRender, Event.dbSaveHtml, Event.callPdf 0, Event.callUpload,
        Event.dbComplete],
       [save_html base html, complete_resume (save_html base html) meta],
       complete_resume (save_html base html) meta)) := by
  unfold run_tail
  cases hr : env.render enh with
  | error e => exact Or.inl ⟨e, rfl⟩
  | ok html =>
    dsimp only
    cases hg : generate_pdf_with_retry env.pdf with
    | error e => exact Or.inr (Or.inl ⟨html, e, rfl⟩)
    | ok pdf_bytes =>
      dsimp only
      cases hu : upload_pdf env rid uid pdf_bytes with
      | error e => exact Or.inr (Or.inr (Or.inl ⟨html, e, rfl⟩))
      | ok meta => exact Or.inr (Or.inr (Or.inr ⟨html, meta, rfl⟩))

/-- The components of `process_existing_resume`, spelled out. -/
theorem process_existing_resume_eq (env : PipelineEnv) (rid uid : String)
    (draft : ResumeDraft) :
    process_existing_resume env rid uid draft =
      { events := Event.dbInsert :: Event.dbUpdateStatus ResumeStatus.processing ::
          ((aiStage env draft).2 ++
            (run_tail bgHandler bgHandler env rid uid (aiStage env draft).1
              (update_status (mk_document rid uid draft) ResumeStatus.processing)).1)
        states := mk_document rid uid draft ::
          update_status (mk_document rid uid draft) ResumeStatus.processing ::
          (run_tail bgHandler bgHandler env rid uid (aiStage env draft).1
            (update_status (mk_document rid uid draft) ResumeStatus.processing)).2.1
        final := (run_tail bgHandler bgHandler env rid uid (aiStage env draft).1
          (update_status (mk_document rid uid draft) ResumeStatus.processing)).2.2 } :=
  rfl

/-- The state list of `generate_resume`, spelled out by validation outcome. -/
theorem genStates_eq (env : PipelineEnv) (rid uid : String) (draft : ResumeDraft) :
    genStates env rid uid draft =
      match validate_draft draft with
      | Except.error _ => []
      | Except.ok _ => mk_document rid uid draft ::
          update_status (mk_document rid uid draft) ResumeStatus.processing ::
          (run_tail pdfErrHandler unknownHandler env rid uid (aiStage env draft).1
            (update_status (mk_document rid uid draft) ResumeStatus.processing)).2.1 := by
  unfold genStates generate_resume
  cases validate_draft draft <;> rfl

/-- The event list of `generate_resume`, spelled out by validation outcome. -/
theorem genEvents_eq (env : PipelineEnv) (rid uid : String) (draft : ResumeDraft) :
    genEvents env rid uid draft =
      match validate_draft draft with
      | Except.error _ => []
      | Except.ok _ => Event.dbInsert ::
          ((aiStage env draft).2 ++ Event.dbUpdateStatus ResumeStatus.processing ::
            (run_tail pdfErrHandler unknownHandler env rid uid (aiStage env draft).1
              (update_status (mk_document rid uid draft) ResumeStatus.processing)).1) := by
  unfold genEvents generate_resume
  cases validate_draft draft <;> rfl

/-- Once the processing write has been seen, `checkBefore` accepts. -/
theorem checkBefore_seen (isExt : Event → Bool) :
    ∀ l : List Event, checkBefore isExt true l = true := by
  intro l
  induction l with
  | nil => rfl
  | cons e rest ih => simp [checkBefore, ih]

theorem enhance_exps_events_ai (env : AIOracles) :
    ∀ (l : List ExperienceEntry) (k : Nat) (e : Event),
      e ∈ (enhance_exps env k l).2 → e = Event.callAI := by
  intro l
  induction l with
  | nil =>
    intro k e he
    simp [enhance_exps] at he
  | cons x rest ih =>
    intro k e he
    simp only [enhance_exps] at he
    split at he
    · exact ih (k + 1) e he
    · split at he
      · rcases List.mem_cons.mp he with h | h
        · exact h
        · exact ih (k + 1) e h
      · rcases List.mem_cons.mp he with h | h
        · exact h
        · exact ih (k + 1) e h

theorem enhance_projs_events_ai (env : AIOracles) :
    ∀ (l : List ProjectEntry) (k : Nat) (e : Event),
      e ∈ (enhance_projs env k l).2 → e = Event.callAI := by
  intro l
  induction l with
  | nil =>
    intro k e he
    simp [enhance_projs] at he
  | cons x rest ih =>
    intro k e he
    simp only [enhance_projs] at he
    split at he
    · exact ih (k + 1) e he
    · split at he
      · rcases List.mem_cons.mp he with h | h
        · exact h
        · exact ih (k + 1) e h
      · rcases List.mem_cons.mp he with h | h
        · exact h
        · exact ih (k + 1) e h

theorem summary_step_events_ai (env : AIOracles) (opts : AIEnhancementOptions)
    (snap : ResumeDraft) :
    ∀ e ∈ (summary_step env opts snap).2, e = Event.callAI := by
  intro e he
  unfold summary_step at he
  split at he
  · split at he
    · split at he <;> simp_all
    · simp at he
  · simp at he

theorem experience_step_events_ai (env : AIOracles) (opts : AIEnhancementOptions)
    (s : ResumeDraft × List Event) (hs : ∀ e ∈ s.2, e = Event.callAI) :
    ∀ e ∈ (experience_step env opts s).2, e = Event.callAI := by
  intro e he
  unfold experience_step at he
  split at he
  · rcases List.mem_append.mp he with h | h
    · exact hs e h
    · exact enhance_exps_events_ai env s.1.experience 0 e h
  · exact hs e he

theorem projects_step_events_ai (env : AIOracles) (opts : AIEnhancementOptions)
    (s : ResumeDraft × List Event) (hs : ∀ e ∈ s.2, e = Event.callAI) :
    ∀ e ∈ (projects_step env opts s).2, e = Event.callAI := by
  intro e he
  unfold projects_step at he
  split at he
  · rcases List.mem_append.mp he with h | h
    · exact hs e h
    · exact enhance_projs_events_ai env s.1.projects 0 e h
  · exact hs e he

/-- Every event emitted by the AI-enhancement stage is an LLM call. -/
theorem aiStage_events_ai (env : PipelineEnv) (draft : ResumeDraft) :
    ∀ e ∈ (aiStage env draft).2, e = Event.callAI := by
  unfold aiStage
  split
  · cases hai : env.ai_enhancer with
    | none => intro e he; simp [apply_ai_enhancement] at he
    | some o =>
      exact projects_step_events_ai o draft.ai_enhancement _
        (experience_step_events_ai o draft.ai_enhancement _
          (summary_step_events_ai o draft.ai_enhancement draft))
  · intro e he
    simp at he

/-- A leading segment consisting only of LLM calls contains no heavy external call,
so a trace (AI calls, then the processing write, then anything) passes the
heavy-external check. -/
theorem checkBefore_ai_calls (l rest : List Event)
    (hl : ∀ e ∈ l, e = Event.callAI) :
    checkBefore isHeavyExternal false
      (l ++ Event.dbUpdateStatus ResumeStatus.processing :: rest) = true := by
  induction l with
  | nil => exact checkBefore_seen isHeavyExternal rest
  | cons e l ih =>
    have he : e = Event.callAI := hl e (List.mem_cons_self e l)
    subst he
    exact ih (fun x hx => hl x (List.mem_cons_of_mem _ hx))

theorem enhance_exps_cons (env : AIOracles) (k : Nat) (x : ExperienceEntry)
    (rest : List ExperienceEntry) :
    (enhance_exps env k (x :: rest)).1 =
      (if x.achievements.isEmpty then x
       else
         match env.achievements k x.achievements with
         | Except.ok newA => { x with achievements := newA }
         | Except.error _ => x) :: (enhance_exps env (k + 1) rest).1 := by
  simp only [enhance_exps]
  split
  · rfl
  · split <;> rfl

theorem enhance_projs_cons (env : AIOracles) (k : Nat) (x : ProjectEntry)
    (rest : List ProjectEntry) :
    (enhance_projs env k (x :: rest)).1 =
      (if x.description == "" then x
       else
         match env.project k x.description with
         | Except.ok newD => { x with description := newD }
         | Except.error _ => x) :: (enhance_projs env (k + 1) rest).1 := by
  simp only [enhance_projs]
  split
  · rfl
  · split <;> rfl

/-- An experience entry whose enhancement call fails keeps its position and
its original content. -/
theorem enhance_exps_keeps_failed (env : AIOracles) :
    ∀ (l : List ExperienceEntry) (k i : Nat) (ent : ExperienceEntry) (err : String),
      l.get? i = some ent →
      env.achievements (k + i) ent.achievements = Except.error err →
      (enhance_exps env k l).1.get? i = some ent := by
  intro l
  induction l with
  | nil =>
    intro k i ent err hget _
    simp at hget
  | cons x rest ih =>
    intro k i ent err hget hora
    cases i with
    | zero =>
      have hx : x = ent := by simpa using hget
      subst hx
      have hk : env.achievements k x.achievements = Except.error err := by
        simpa using hora
      rw [enhance_exps_cons]
      by_cases hemp : x.achievements.isEmpty
      · simp [hemp]
      · simp [hemp, hk]
    | succ j =>
      rw [enhance_exps_cons]
      have hget2 : rest.get? j = some ent := by simpa using hget
      have hora2 : env.achievements (k + 1 + j) ent.achievements = Except.error err := by
        have hkj : k + 1 + j = k + (j + 1) := by omega
        rw [hkj]
        exact hora
      simpa using ih (k + 1) j ent err hget2 hora2

/-- A project whose enhancement call fails keeps its position and its
original content. -/
theorem enhance_projs_keeps_failed (env : AIOracles) :
    ∀ (l : List ProjectEntry) (k i : Nat) (p : ProjectEntry) (err : String),
      l.get? i = some p →
      env.project (k + i) p.description = Except.error err →
      (enhance_projs env k l).1.get? i = some p := by
  intro l
  induction l with
  | nil =>
    intro k i p err hget _
    simp at hget
  | cons x rest ih =>
    intro k i p err hget hora
    cases i with
    | zero =>
      have hx : x = p := by simpa using hget
      subst hx
      have hk : env.project k x.description = Except.error err := by simpa using hora
      rw [enhance_projs_cons]
      by_cases hemp : x.description == ""
      · simp [hemp]
      · simp [hemp, hk]
    | succ j =>
      rw [enhance_projs_cons]
      have hget2 : rest.get? j = some p := by simpa using hget
      have hora2 : env.project (k + 1 + j) p.description = Except.error err := by
        have hkj : k + 1 + j = k + (j + 1) := by omega
        rw [hkj]
        exact hora
      simpa using ih (k + 1) j p err hget2 hora2

theorem summary_step_frame (env : AIOracles) (opts : AIEnhancementOptions)
    (snap : ResumeDraft) :
    (summary_step env opts snap).1.experience = snap.experience
    ∧ (summary_step env opts snap).1.projects = snap.projects := by
  unfold summary_step
  split
  · split
    · split <;> exact ⟨rfl, rfl⟩
    · exact ⟨rfl, rfl⟩
  · exact ⟨rfl, rfl⟩

theorem experience_step_frame (env : AIOracles) (opts : AIEnhancementOptions)
    (s : ResumeDraft × List Event) :
    (experience_step env opts s).1.profile = s.1.profile
    ∧ (experience_step env opts s).1.projects = s.1.projects := by
  unfold experience_step
  split <;> exact ⟨rfl, rfl⟩

theorem projects_step_frame (env : AIOracles) (opts : AIEnhancementOptions)
    (s : ResumeDraft × List Event) :
    (projects_step env opts s).1.profile = s.1.profile
    ∧ (projects_step env opts s).1.experience = s.1.experience := by
  unfold projects_step
  split <;> exact ⟨rfl, rfl⟩

theorem summary_step_keeps_failed (env : AIOracles) (opts : AIEnhancementOptions)
    (snap : ResumeDraft) (s err : String)
    (hs : snap.profile.summary = some s)
    (ho : env.summary s = Except.error err) :
    (summary_step env opts snap).1.profile.summary = some s := by
  unfold summary_step
  by_cases hc : opts.enhance_summary && summaryTruthy snap.profile.summary
  · rw [if_pos hc, hs]
    dsimp only
    rw [ho]
    exact hs
  · rw [if_neg hc]
    exact hs

theorem apply_ai_keeps_failed_summary (env : AIOracles)
    (opts : AIEnhancementOptions) (snap : ResumeDraft) (s err : String)
    (hs : snap.profile.summary = some s)
    (ho : env.summary s = Except.error err) :
    (apply_ai_enhancement (some env) opts snap).1.profile.summary = some s := by
  have h2 := (experience_step_frame env opts (summary_step env opts snap)).1
  have h3 :=
    (projects_step_frame env opts
      (experience_step env opts (summary_step env opts snap))).1
  show (projects_step env opts
      (experience_step env opts (summary_step env opts snap))).1.profile.summary = some s
  rw [h3, h2]
  exact summary_step_keeps_failed env opts snap s err hs ho

theorem apply_ai_keeps_failed_experience (env : AIOracles)
    (opts : AIEnhancementOptions) (snap : ResumeDraft) (i : Nat)
    (ent : ExperienceEntry) (err : String)
    (hget : snap.experience.get? i = some ent)
    (ho : env.achievements i ent.achievements = Except.error err) :
    (apply_ai_enhancement (some env) opts snap).1.experience.get? i = some ent := by
  have h3 :=
    (projects_step_frame env opts
      (experience_step env opts (summary_step env opts snap))).2
  have h1 := (summary_step_frame env opts snap).1
  show (projects_step env opts
      (experience_step env opts (summary_step env opts snap))).1.experience.get? i =
    some ent
  rw [h3]
  unfold experience_step
  by_cases hc : opts.enhance_experience &&
      !(summary_step env opts snap).1.experience.isEmpty
  · rw [if_pos hc]
    dsimp only
    rw [h1]
    exact enhance_exps_keeps_failed env snap.experience 0 i ent err hget
      (by simpa using ho)
  · rw [if_neg hc]
    rw [h1]
    exact hget

theorem apply_ai_keeps_failed_project (env : AIOracles)
    (opts : AIEnhancementOptions) (snap : ResumeDraft) (i : Nat)
    (p : ProjectEntry) (err : String)
    (hget : snap.projects.get? i = some p)
    (ho : env.project i p.description = Except.error err) :
    (apply_ai_enhancement (some env) opts snap).1.projects.get? i = some p := by
  have h1 := (summary_step_frame env opts snap).2
  have h2 := (experience_step_frame env opts (summary_step env opts snap)).2
  show (projects_step env opts
      (experience_step env opts (summary_step env opts snap))).1.projects.get? i = some p
  unfold projects_step
  by_cases hc : opts.enhance_projects &&
      !(experience_step env opts (summary_step env opts snap)).1.projects.isEmpty
  · rw [if_pos hc]
    dsimp only
    rw [h2, h1]
    exact enhance_projs_keeps_failed env snap.projects 0 i p err hget
      (by simpa using ho)
  · rw [if_neg hc]
    rw [h2, h1]
    exact hget

/-- The render stage is always reached and attempted. -/
theorem run_tail_has_render (hp ho : String → String × String)
    (env : PipelineEnv) (rid uid : String) (enh : ResumeDraft)
    (base : ResumeDocument) :
    Event.callRender ∈ (run_tail hp ho env rid uid enh base).1 := by
  rcases run_tail_cases hp ho env rid uid enh base with
    ⟨e, h⟩ | ⟨a, e, h⟩ | ⟨a, e, h⟩ | ⟨a, m, h⟩ <;> rw [h] <;> simp

/- ---------------------------------------------------------------------
   Concrete fixtures used by the closed theorems below.
--------------------------------------------------------------------- -/

def sampleOpts : AIEnhancementOptions :=
  { enhance_summary := false, enhance_experience := false, enhance_projects := false }

def sampleProfile : Profile :=
  { full_name := "John Doe", email := "john@example.com"
    summary := some ("Engineer with 5 years of backend work") }

def sampleExp : ExperienceEntry :=
  { company := "Tech Corp", position := "Engineer"
    achievements := ["Led migration", "Reduced latency"] }

def sampleDraft : ResumeDraft :=
  { profile := sampleProfile, experience := [sampleExp], projects := []
    ai_enhancement := sampleOpts }

def draftNoExperience : ResumeDraft := { sampleDraft with experience := [] }

def draftBlankName : ResumeDraft :=
  { sampleDraft with profile := { sampleProfile with full_name := "   " } }

def envAllOk : PipelineEnv :=
  { ai_enhancer := none
    render := fun _ => Except.ok ("<html>rendered</html>")
    pdf := fun _ => Except.ok [37, 80, 68, 70]
    uploadPut := Except.ok ()
    presign := Except.ok ("https://s3.example/presigned") }

def envUploadFail : PipelineEnv :=
  { envAllOk with uploadPut := Except.error ("S3 connection refused") }

def envRenderFail : PipelineEnv :=
  { envAllOk with render := fun _ => Except.error ("template missing") }

/-- Rasterizer that fails on attempts 0 and 1 and succeeds from attempt 2 on. -/
def envPdfFlaky : PipelineEnv :=
  { envAllOk with
    pdf := fun attempt =>
      if attempt < 2 then Except.error ("browser crashed") else Except.ok [37, 80, 68, 70] }

/-- AI oracles that always succeed. -/
def oraclesOK : AIOracles :=
  { summary := fun s => Except.ok ("Enhanced: " ++ s)
    achievements := fun _ a => Except.ok a
    project := fun _ d => Except.ok d }

def envAI : PipelineEnv := { envAllOk with ai_enhancer := some oraclesOK }

/-- A valid draft with summary enhancement toggled on. -/
def draftAI : ResumeDraft :=
  { sampleDraft with
    ai_enhancement :=
      { enhance_summary := true, enhance_experience := false, enhance_projects := false } }

/-- AI oracles that always fail (collaborator persistently down). -/
def oraclesFail : AIOracles :=
  { summary := fun _ => Except.error ("llm down")
    achievements := fun _ _ => Except.error ("llm down")
    project := fun _ _ => Except.error ("llm down") }

def optsAll : AIEnhancementOptions :=
  { enhance_summary := true, enhance_experience := true, enhance_projects := true }

def sampleProj : ProjectEntry := { name := "Proj", description := "Desc" }

/-- A valid draft with all enhancement sections toggled on. -/
def draftFull : ResumeDraft :=
  { sampleDraft with projects := [sampleProj], ai_enhancement := optsAll }

/- ---------------------------------------------------------------------
   Claims
--------------------------------------------------------------------- -/

/-- Claim C1 (code bug).  The claim says `Create` rejects with a
ValidationError both a draft with a blank identity field and a draft with
zero experience entries, persisting nothing.  The code enforces only the
first half: `_validate_draft` rejects a blank full_name, but a draft with
an empty experience list passes validation (the loop over entries is
vacuous) and `create_resume` persists a document for it — contradicting
the endpoint's own docstring ("At least one experience entry is
required") and the repository's tests
(tests/test_resume_draft.py::test_at_least_one_experience_required). -/
theorem C1_zero_experience_accepted :
    validate_draft draftBlankName =
      Except.error ("Profile full_name is required and cannot be empty. " ++
        "Please provide your full name in the profile section.")
    ∧ validate_draft draftNoExperience = Except.ok ()
    ∧ create_resume ("r0") ("u0") draftNoExperience =
        Except.ok (mk_document ("r0") ("u0") draftNoExperience) :=
  ⟨rfl, rfl, rfl⟩

/-- Claim C6 (code bug).  The claim (and the method's own docstring
"same count as input", plus the log line "Padding with originals") says
enhancing N bullets always yields exactly N.  A longer LLM response is
indeed truncated to N, but a shorter response is returned as-is:
3 original bullets with a 2-line completion yield only 2 bullets. -/
theorem C6_short_llm_response_loses_bullets :
    enhance_experience_achievements (Except.ok ("- improved x\n- shipped y"))
        (["a", "b", "c"]) = ["improved x", "shipped y"]
    ∧ (enhance_experience_achievements (Except.ok ("- improved x\n- shipped y"))
        (["a", "b", "c"])).length = 2
    ∧ enhance_experience_achievements (Except.ok ("- p\n- q\n- r\n- s"))
        (["a", "b", "c"]) = ["p", "q", "r"]
    ∧ enhance_experience_achievements (Except.error ("timeout"))
        (["a", "b", "c"]) = ["a", "b", "c"] :=
  ⟨by decide, by decide, by decide, by decide⟩

/-- Claim C10 (confirmed).  An empty or whitespace-only input makes
`enhance_summary` and `enhance_project_description` return the input
unchanged without invoking the LLM collaborator (second component false). -/
theorem C10_blank_input_skips_llm (llm : Except String String) (s : String)
    (h : pyStrip s = "") :
    enhance_summary llm s = (s, false)
    ∧ enhance_project_description llm s = (s, false) := by
  have hb : pyBlank s = true := by simp [pyBlank, h]
  exact ⟨by simp [enhance_summary, hb], by simp [enhance_project_description, hb]⟩

theorem C10_blank_input_skips_llm_witness :
    enhance_summary (Except.error ("llm down")) ("  ") = ("  ", false)
    ∧ enhance_project_description (Except.error ("llm down")) ("  ") = ("  ", false) :=
  C10_blank_input_skips_llm (Except.error ("llm down")) ("  ") (by decide)

/-- Claim C9 (confirmed).  The in-memory acquire is an atomic
set-if-absent-with-expiry: once an acquire for (name, args) succeeds at
time t1 with TTL ttl1, any acquire of the same (name, args) against the
resulting state at a time before t1 + ttl1 returns false. -/
theorem C9_acquire_mutual_exclusion (locks : String → Option LockData)
    (name args : String) (t1 ttl1 t2 ttl2 : Nat)
    (h1 : (acquire locks name args t1 ttl1).1 = true)
    (h2 : t2 < t1 + ttl1) :
    (acquire (acquire locks name args t1 ttl1).2 name args t2 ttl2).1 = false := by
  unfold acquire acquire_memory at h1 ⊢
  cases hk : locks (get_lock_key name args) with
  | none => simp [hk, h2]
  | some ld =>
    rw [hk] at h1
    dsimp only at h1 ⊢
    by_cases hlt : t1 < ld.expires_at
    · rw [if_pos hlt] at h1
      simp at h1
    · rw [if_neg hlt] at h1 ⊢
      simp [h2]

theorem C9_acquire_mutual_exclusion_witness :
    (acquire (fun _ => none) ("generate_resume_task") ("(42,)") 100 3600).1 = true
    ∧ (acquire (acquire (fun _ => none) ("generate_resume_task") ("(42,)") 100 3600).2
        ("generate_resume_task") ("(42,)") 200 3600).1 = false :=
  ⟨rfl, C9_acquire_mutual_exclusion (fun _ => none) ("generate_resume_task") ("(42,)")
    100 3600 200 3600 rfl (by decide)⟩

/-- Claim C3 (code bug).  The claim (and the pipeline's own docstrings:
"Generate PDF with Playwright (2x retry)", method `_generate_pdf_with_retry`
"with automatic retry") says the rasterization call is retried a bounded
number of times, so that a rasterizer failing twice then succeeding yields
COMPLETE with retry_count 0 and one artifact.  The code makes exactly one
attempt: with such a rasterizer the run consults only attempt 0, writes
status ERROR, stores no artifact, and increments retry_count to 1. -/
theorem C3_rasterizer_not_retried :
    (process_existing_resume envPdfFlaky ("r3") ("u3") sampleDraft).final.status =
      ResumeStatus.error
    ∧ (process_existing_resume envPdfFlaky ("r3") ("u3") sampleDraft).final.pdf = none
    ∧ (process_existing_resume envPdfFlaky ("r3") ("u3") sampleDraft).final.retry_count = 1
    ∧ ((process_existing_resume envPdfFlaky ("r3") ("u3") sampleDraft).events.filter
        isPdfCall) = [Event.callPdf 0]
    ∧ (process_existing_resume envAllOk ("r3") ("u3") sampleDraft).final.status =
      ResumeStatus.complete :=
  ⟨rfl, rfl, rfl, rfl, rfl⟩

/-- Claim C2 counterexample.  The claim says a persistent upload failure is
recorded with an upload-class errorCode, i.e. that the background handler
classifies failures per the taxonomy.  The background handler writes the
same fixed code "processing_error" for an upload failure as for a render
failure, so the recorded errorCode does not identify an upload-class (or
any) failure class; the retry_count == 1 part does hold. -/
theorem C2_upload_failure_not_upload_classified :
    (process_existing_resume envUploadFail ("r2") ("u2") sampleDraft).final.status =
      ResumeStatus.error
    ∧ (process_existing_resume envUploadFail ("r2") ("u2") sampleDraft).final.retry_count = 1
    ∧ (process_existing_resume envUploadFail ("r2") ("u2") sampleDraft).final.error_code =
        some ("processing_error")
    ∧ (process_existing_resume envRenderFail ("r2") ("u2") sampleDraft).final.error_code =
        some ("processing_error") :=
  ⟨rfl, rfl, rfl, rfl⟩

/-- Claim C2 as amended.  Every failure in the background stages is caught
at the top level and recorded on the document as status ERROR with the
fixed generic code "processing_error" and retry_count 1; nothing is
re-raised past the background boundary (the run function is total and
always ends in COMPLETE or this ERROR record). -/
theorem C2_amended_background_failures_caught (env : PipelineEnv)
    (resume_id user_id : String) (draft : ResumeDraft) :
    (process_existing_resume env resume_id user_id draft).final.status =
      ResumeStatus.complete
    ∨ ((process_existing_resume env resume_id user_id draft).final.status =
        ResumeStatus.error
      ∧ (process_existing_resume env resume_id user_id draft).final.error_code =
          some ("processing_error")
      ∧ (process_existing_resume env resume_id user_id draft).final.retry_count = 1) := by
  rw [process_existing_resume_eq]
  rcases run_tail_cases bgHandler bgHandler env resume_id user_id (aiStage env draft).1
      (update_status (mk_document resume_id user_id draft) ResumeStatus.processing) with
    ⟨e, hrt⟩ | ⟨html, e, hrt⟩ | ⟨html, e, hrt⟩ | ⟨html, meta, hrt⟩ <;> rw [hrt]
  · exact Or.inr ⟨rfl, rfl, rfl⟩
  · exact Or.inr ⟨rfl, rfl, rfl⟩
  · exact Or.inr ⟨rfl, rfl, rfl⟩
  · exact Or.inl rfl

/-- Claim C4 (confirmed).  Over every state the store goes through, in both
the dispatched background path and the pipeline's `generate_resume` path,
the artifact field (`pdf`) is non-null iff status is COMPLETE and the error
fields are non-null iff status is ERROR. -/
theorem C4_artifact_error_invariant (env : PipelineEnv) (rid uid : String)
    (draft : ResumeDraft) :
    ((process_existing_resume env rid uid draft).states).all docInvariantB = true
    ∧ (genStates env rid uid draft).all docInvariantB = true := by
  constructor
  · rw [process_existing_resume_eq]
    rcases run_tail_cases bgHandler bgHandler env rid uid (aiStage env draft).1
        (update_status (mk_document rid uid draft) ResumeStatus.processing) with
      ⟨e, hrt⟩ | ⟨html, e, hrt⟩ | ⟨html, e, hrt⟩ | ⟨html, meta, hrt⟩ <;> rw [hrt] <;> rfl
  · rw [genStates_eq]
    cases hv : validate_draft draft with
    | error e => rfl
    | ok u =>
      rcases run_tail_cases pdfErrHandler unknownHandler env rid uid (aiStage env draft).1
          (update_status (mk_document rid uid draft) ResumeStatus.processing) with
        ⟨e, hrt⟩ | ⟨html, e, hrt⟩ | ⟨html, e, hrt⟩ | ⟨html, meta, hrt⟩ <;> rw [hrt] <;> rfl

/-- Claim C8 (confirmed).  No post-creation store update (status
transition, rendered content, completion metadata, error fields) touches
the `snapshot` field, and along the whole background run every stored
state carries the snapshot written at creation: enhancement only affects
the in-memory copy handed to the renderer. -/
theorem C8_snapshot_immutable :
    (∀ (d : ResumeDocument) (s : ResumeStatus), (update_status d s).snapshot = d.snapshot)
    ∧ (∀ (d : ResumeDocument) (h : String), (save_html d h).snapshot = d.snapshot)
    ∧ (∀ (d : ResumeDocument) (m : PDFMetadata),
        (complete_resume d m).snapshot = d.snapshot)
    ∧ (∀ (d : ResumeDocument) (msg code : String),
        (mark_error d msg code).snapshot = d.snapshot)
    ∧ (∀ (env : PipelineEnv) (rid uid : String) (draft : ResumeDraft),
        ((process_existing_resume env rid uid draft).states).all
          (fun d => decide (d.snapshot = draft)) = true) := by
  refine ⟨fun d s => rfl, fun d h => rfl, fun d m => rfl, fun d msg code => rfl, ?_⟩
  intro env rid uid draft
  rw [process_existing_resume_eq]
  rcases run_tail_cases bgHandler bgHandler env rid uid (aiStage env draft).1
      (update_status (mk_document rid uid draft) ResumeStatus.processing) with
    ⟨e, hrt⟩ | ⟨html, e, hrt⟩ | ⟨html, e, hrt⟩ | ⟨html, meta, hrt⟩ <;> rw [hrt] <;>
    simp [mk_document, update_status, save_html, mark_error, complete_resume]

/-- Claim C5 counterexample.  In `ResumePipeline.generate_resume` the AI
text-enhancement call (an external collaborator call) happens before the
status is set to PROCESSING: with a valid draft that has summary
enhancement enabled, the trace contains callAI strictly before the
processing write, so the claim "status is set to PROCESSING before the
first external collaborator call" fails for this pipeline run. -/
theorem C5_generate_resume_calls_ai_before_processing :
    genEvents envAI ("r5") ("u5") draftAI =
      [Event.dbInsert, Event.callAI, Event.dbUpdateStatus ResumeStatus.processing,
       Event.callRender, Event.dbSaveHtml, Event.callPdf 0, Event.callUpload,
       Event.dbComplete]
    ∧ checkBefore isExternalCall false (genEvents envAI ("r5") ("u5") draftAI) = false :=
  ⟨rfl, rfl⟩

/-- Claim C5 as amended.  In the dispatched background path
(`_process_existing_resume`) the PROCESSING write precedes every external
collaborator call, including AI enhancement; in
`ResumePipeline.generate_resume` it precedes render, rasterize and upload,
but AI enhancement runs before it. -/
theorem C5_amended_processing_before_externals :
    (∀ (env : PipelineEnv) (rid uid : String) (draft : ResumeDraft),
      checkBefore isExternalCall false
        ((process_existing_resume env rid uid draft).events) = true)
    ∧ (∀ (env : PipelineEnv) (rid uid : String) (draft : ResumeDraft),
      checkBefore isHeavyExternal false (genEvents env rid uid draft) = true) := by
  constructor
  · intro env rid uid draft
    rw [process_existing_resume_eq]
    exact checkBefore_seen isExternalCall _
  · intro env rid uid draft
    rw [genEvents_eq]
    cases hv : validate_draft draft with
    | error e => rfl
    | ok u => exact checkBefore_ai_calls _ _ (aiStage_events_ai env draft)

/-- Claim C7 (confirmed).  When the enhancer is unavailable the snapshot
passes through unchanged; when any single per-field enhancement call fails
the corresponding field (summary, an entry's achievements, a project's
description) keeps its original value; and the run always proceeds to the
render stage — a per-field enhancement failure never aborts the document. -/
theorem C7_field_failure_keeps_original_and_proceeds :
    (∀ (opts : AIEnhancementOptions) (snap : ResumeDraft),
      apply_ai_enhancement none opts snap = (snap, []))
    ∧ (∀ (env : AIOracles) (opts : AIEnhancementOptions) (snap : ResumeDraft)
        (s err : String), snap.profile.summary = some s →
        env.summary s = Except.error err →
        (apply_ai_enhancement (some env) opts snap).1.profile.summary = some s)
    ∧ (∀ (env : AIOracles) (opts : AIEnhancementOptions) (snap : ResumeDraft)
        (i : Nat) (ent : ExperienceEntry) (err : String),
        snap.experience.get? i = some ent →
        env.achievements i ent.achievements = Except.error err →
        (apply_ai_enhancement (some env) opts snap).1.experience.get? i = some ent)
    ∧ (∀ (env : AIOracles) (opts : AIEnhancementOptions) (snap : ResumeDraft)
        (i : Nat) (p : ProjectEntry) (err : String),
        snap.projects.get? i = some p →
        env.project i p.description = Except.error err →
        (apply_ai_enhancement (some env) opts snap).1.projects.get? i = some p)
    ∧ (∀ (env : PipelineEnv) (rid uid : String) (draft : ResumeDraft),
        Event.callRender ∈ (process_existing_resume env rid uid draft).events) := by
  refine ⟨fun opts snap => rfl,
    fun env opts snap s err hs ho => apply_ai_keeps_failed_summary env opts snap s err hs ho,
    fun env opts snap i ent err hg ho =>
      apply_ai_keeps_failed_experience env opts snap i ent err hg ho,
    fun env opts snap i p err hg ho =>
      apply_ai_keeps_failed_project env opts snap i p err hg ho,
    ?_⟩
  intro env rid uid draft
  rw [process_existing_resume_eq]
  have hr := run_tail_has_render bgHandler bgHandler env rid uid (aiStage env draft).1
    (update_status (mk_document rid uid draft) ResumeStatus.processing)
  exact List.mem_cons_of_mem _ (List.mem_cons_of_mem _ (List.mem_append_right _ hr))

theorem C7_field_failure_keeps_original_and_proceeds_witness :
    (apply_ai_enhancement (some oraclesFail) optsAll draftFull).1.profile.summary =
      some ("Engineer with 5 years of backend work")
    ∧ (apply_ai_enhancement (some oraclesFail) optsAll draftFull).1.experience.get? 0 =
        some sampleExp
    ∧ (apply_ai_enhancement (some oraclesFail) optsAll draftFull).1.projects.get? 0 =
        some sampleProj :=
  ⟨C7_field_failure_keeps_original_and_proceeds.2.1 oraclesFail optsAll draftFull
      ("Engineer with 5 years of backend work") ("llm down") rfl rfl,
   C7_field_failure_keeps_original_and_proceeds.2.2.1 oraclesFail optsAll draftFull
      0 sampleExp ("llm down") rfl rfl,
   C7_field_failure_keeps_original_and_proceeds.2.2.2.1 oraclesFail optsAll draftFull
      0 sampleProj ("llm down") rfl rfl⟩

end ResumeBuilder
